import Mathlib

/-!
Shallow embedding of `lc_regression/utils.py` (repository
`mwvgroup/lc_reconstruction`), covering the time-normalization function
`convert_to_jd`, the chi-squared primitive `chisq`, and the residual
evaluator `calc_model_chisq`, together with theorems settling the spec's
claims about them.

Machine floats are modelled as rationals (`ℚ`); numpy arrays and astropy
table columns as Lean lists; raising `ValueError` as `Except.error`.
-/

namespace LCRegression

/-- Date-format tags handed to `astropy.time.Time` inside `convert_to_jd`:
the code starts with format `mjd` and switches to `jd` in one branch. -/
inductive DateFormat where
  | mjd
  | jd
deriving DecidableEq

/-- Modelled from the spec: the external `astropy.time.Time` conversion used
at the end of `convert_to_jd` (`t = Time(date, format=date_format);
t.format = 'jd'; t.value`). Per the glossary, MJD = JD - 2400000.5, so a
value tagged `mjd` read back as JD gains 2400000.5, and a value already
tagged `jd` is returned unchanged. -/
def timeAsJD (date : ℚ) (fmt : DateFormat) : ℚ :=
  match fmt with
  | DateFormat.mjd => date + 2400000.5
  | DateFormat.jd => date

/-- Embedding of `convert_to_jd` from `lc_regression/utils.py` (applied per
scalar element by `np.vectorize`): if `date < 53000` add the Snoopy offset
53000 and keep format `mjd`; else if `date > 2400000.5` switch the format
to `jd`; finally convert to JD via astropy. -/
def convert_to_jd (date : ℚ) : ℚ :=
  let snoopy_offset : ℚ := 53000
  let mjd_offset : ℚ := 2400000.5
  if date < snoopy_offset then
    timeAsJD (date + snoopy_offset) DateFormat.mjd
  else if date > mjd_offset then
    timeAsJD date DateFormat.jd
  else
    timeAsJD date DateFormat.mjd

/-- Embedding of the standalone primitive `chisq(data, error, model)` from
`lc_regression/utils.py`: `np.sum(((data - model) / error) ** 2)`, the
numpy elementwise operations modelled by zipping the three lists. -/
def chisq (data error model : List ℚ) : ℚ :=
  (((data.zip error).zip model).map
    (fun p => ((p.1.1 - p.2) / p.1.2) ^ 2)).sum

/-- A bandpass as `calc_model_chisq` consumes it through
`sncosmo.get_bandpass(b)`: only its wavelength bounds are read. -/
structure Bandpass where
  minwave : ℚ
  maxwave : ℚ
deriving DecidableEq

/-- One row of the sncosmo input table read by `calc_model_chisq`: a time,
a band, an observed flux and its error. -/
structure ObsRow where
  time : ℚ
  band : Bandpass
  flux : ℚ
  fluxerr : ℚ
deriving DecidableEq

/-- The sncosmo `Model` interface used by `calc_model_chisq`: global
time/wavelength bounds plus the band-flux prediction at the model's
currently-set parameters, abstracted as a function of the table row. -/
structure Model where
  mintime : ℚ
  maxtime : ℚ
  minwave : ℚ
  maxwave : ℚ
  bandflux : ObsRow → ℚ

/-- The sncosmo `Result` interface used by `calc_model_chisq`: only
`result.vparam_names` (the varied parameter names) is read. -/
structure FitResult where
  vparam_names : List String

/-- Modelled from the spec: the external `sncosmo.chisq(data, model)` call
in `calc_model_chisq` computes the summed squared normalized residual
between the observed fluxes and the model's predicted fluxes. -/
def sncosmo_chisq (data : List ObsRow) (model : Model) : ℚ :=
  (data.map (fun r => ((r.flux - model.bandflux r) / r.fluxerr) ^ 2)).sum

/-- Embedding of `copy.deepcopy` on a table value: value semantics, so the
copy is equal as a value to the original. -/
def deepcopy (data : List ObsRow) : List ObsRow :=
  data

/-- The row mask built in `calc_model_chisq`:
`(data['time'] >= model.mintime()) & (data['time'] <= model.maxtime()) &
(min_band_wave >= model.minwave()) & (max_band_wave <= model.maxwave())`. -/
def inModelRange (model : Model) (r : ObsRow) : Bool :=
  decide (r.time ≥ model.mintime) && decide (r.time ≤ model.maxtime) &&
    decide (r.band.minwave ≥ model.minwave) &&
    decide (r.band.maxwave ≤ model.maxwave)

/-- The filtered table `data = data[mask]` built in `calc_model_chisq`
after `data = deepcopy(data)`. -/
def retainedRows (data : List ObsRow) (model : Model) : List ObsRow :=
  (deepcopy data).filter (inModelRange model)

/-- Embedding of `calc_model_chisq(data, result, model)` from
`lc_regression/utils.py`: deep-copy the table, drop rows outside the
model's time range or whose band's wavelength span is not contained in the
model's wavelength support, raise `ValueError` when nothing remains, and
otherwise return `sncosmo.chisq(data, model)` together with
`len(data) - len(result.vparam_names)`. -/
def calc_model_chisq (data : List ObsRow) (result : FitResult) (model : Model) :
    Except String (ℚ × ℤ) :=
  let d := retainedRows data model
  if d.length = 0 then
    Except.error "No data within model range"
  else
    Except.ok (sncosmo_chisq d model,
      (d.length : ℤ) - result.vparam_names.length)

/-- State-passing embedding of `calc_model_chisq` that threads the caller's
table binding: the code reads the table, rebinds its local name to a deep
copy and filters the copy, never writing through the caller's reference. -/
def calc_model_chisq_st (result : FitResult) (model : Model) :
    StateM (List ObsRow) (Except String (ℚ × ℤ)) := do
  let data ← get
  let data := deepcopy data
  let d := data.filter (inModelRange model)
  if d.length = 0 then
    pure (Except.error "No data within model range")
  else
    pure (Except.ok (sncosmo_chisq d model,
      (d.length : ℤ) - result.vparam_names.length))

/-- Snoopy branch of `convert_to_jd`: inputs below 53000. -/
lemma convert_to_jd_of_lt (x : ℚ) (h : x < 53000) :
    convert_to_jd x = x + 53000 + 2400000.5 := by
  rw [convert_to_jd, if_pos h]
  simp [timeAsJD, add_assoc]

/-- MJD branch of `convert_to_jd`: inputs in [53000, 2400000.5]. -/
lemma convert_to_jd_of_between (x : ℚ) (h1 : 53000 ≤ x) (h2 : x ≤ 2400000.5) :
    convert_to_jd x = x + 2400000.5 := by
  rw [convert_to_jd, if_neg (by linarith), if_neg (by linarith)]
  rfl

/-- JD branch of `convert_to_jd`: inputs above 2400000.5 are unchanged. -/
lemma convert_to_jd_of_gt (x : ℚ) (h : 2400000.5 < x) :
    convert_to_jd x = x := by
  rw [convert_to_jd, if_neg (by linarith), if_pos (by linarith)]
  rfl

/-- C3: `convert_to_jd` on each scalar: below 53000 it adds 53000 and then
2400000.5 (Snoopy); between 53000 and 2400000.5 inclusive it adds
2400000.5 (MJD, so exactly 53000 and exactly 2400000.5 are both MJD);
above 2400000.5 it is unchanged (JD); and 500, 53500 and 2453500.5 all
normalize to 2453500.5. -/
theorem convert_to_jd_cases (x : ℚ) :
    (x < 53000 → convert_to_jd x = x + 53000 + 2400000.5) ∧
    (53000 ≤ x → x ≤ 2400000.5 → convert_to_jd x = x + 2400000.5) ∧
    (2400000.5 < x → convert_to_jd x = x) ∧
    convert_to_jd 500 = 2453500.5 ∧
    convert_to_jd 53500 = 2453500.5 ∧
    convert_to_jd 2453500.5 = 2453500.5 := by
  refine ⟨fun h1 => ?_, fun h2 h3 => ?_, fun h4 => ?_, ?_, ?_, ?_⟩
  · rw [convert_to_jd, if_pos h1]
    simp [timeAsJD, add_assoc]
  · rw [convert_to_jd, if_neg (by linarith), if_neg (by linarith)]
    rfl
  · rw [convert_to_jd, if_neg (by linarith), if_pos (by linarith)]
    rfl
  · norm_num [convert_to_jd, timeAsJD]
  · norm_num [convert_to_jd, timeAsJD]
  · norm_num [convert_to_jd, timeAsJD]

/-- Witness for C3: the Snoopy branch evaluated at the concrete input 500. -/
theorem convert_to_jd_cases_witness :
    (500 : ℚ) < 53000 ∧ convert_to_jd 500 = 500 + 53000 + 2400000.5 :=
  ⟨by norm_num, (convert_to_jd_cases 500).1 (by norm_num)⟩

/-- Counterexample to C6 as stated: at the explicit input 2400000.5 the
double application of `convert_to_jd` does not return the input, because
the JD test is strict greater-than, so exactly 2400000.5 is treated as MJD
and mapped to 4800001. -/
theorem convert_to_jd_double_at_threshold :
    convert_to_jd (convert_to_jd (2400000.5 : ℚ)) ≠ 2400000.5 := by
  rw [convert_to_jd_of_between 2400000.5 (by norm_num) le_rfl,
    convert_to_jd_of_gt (2400000.5 + 2400000.5) (by norm_num)]
  norm_num

/-- C6 (amended): for every x strictly above the 2400000.5 threshold,
`convert_to_jd (convert_to_jd x) = x`; at or below the threshold the value
changes, as the counterexample at exactly 2400000.5 shows. -/
theorem convert_to_jd_double_above_threshold (x : ℚ) (h : 2400000.5 < x) :
    convert_to_jd (convert_to_jd x) = x := by
  rw [convert_to_jd_of_gt x h, convert_to_jd_of_gt x h]

/-- Witness for C6 (amended) at the concrete input 2400001. -/
theorem convert_to_jd_double_above_threshold_witness :
    (2400000.5 : ℚ) < 2400001 ∧
      convert_to_jd (convert_to_jd 2400001) = 2400001 :=
  ⟨by norm_num, convert_to_jd_double_above_threshold 2400001 (by norm_num)⟩

/-- C10: one application of `convert_to_jd` is already a fixed point for
every x above -53000: the first application lands strictly above 2400000.5,
which the classifier leaves unchanged. -/
theorem convert_to_jd_idem (x : ℚ) (h : -53000 < x) :
    2400000.5 < convert_to_jd x ∧
      convert_to_jd (convert_to_jd x) = convert_to_jd x := by
  have key : 2400000.5 < convert_to_jd x := by
    rcases lt_or_le x 53000 with hx | hx
    · rw [convert_to_jd_of_lt x hx]
      linarith
    · rcases le_or_lt x 2400000.5 with hx2 | hx2
      · rw [convert_to_jd_of_between x hx hx2]
        linarith
      · rw [convert_to_jd_of_gt x hx2]
        exact hx2
  exact ⟨key, convert_to_jd_of_gt _ key⟩

/-- Witness for C10 at the concrete input 0 (a Snoopy-range value). -/
theorem convert_to_jd_idem_witness :
    (-53000 : ℚ) < 0 ∧ (2400000.5 < convert_to_jd 0 ∧
      convert_to_jd (convert_to_jd 0) = convert_to_jd 0) :=
  ⟨by norm_num, convert_to_jd_idem 0 (by norm_num)⟩

/-- C1: a row enters the chi-squared computation (survives the filter of
`calc_model_chisq`) iff its time lies in [mintime, maxtime] and its band's
wavelength span is contained in the model's wavelength support. -/
theorem mem_retainedRows_iff (data : List ObsRow) (model : Model) (r : ObsRow) :
    r ∈ retainedRows data model ↔
      r ∈ data ∧ model.mintime ≤ r.time ∧ r.time ≤ model.maxtime ∧
        model.minwave ≤ r.band.minwave ∧ r.band.maxwave ≤ model.maxwave := by
  simp [retainedRows, deepcopy, List.mem_filter, inModelRange, ge_iff_le,
    and_assoc]

/-- C2: `calc_model_chisq` reports the error raised as `ValueError` in the
source (the spec's DomainError) exactly when no rows survive the filter,
so a chi-squared over zero points is never returned as success; in
particular a table whose rows all lie outside the model's time bounds
yields the error. -/
theorem calc_model_chisq_error_iff (data : List ObsRow) (result : FitResult)
    (model : Model) :
    (calc_model_chisq data result model =
        Except.error "No data within model range" ↔
      retainedRows data model = []) ∧
    ((∀ r ∈ data, r.time < model.mintime ∨ model.maxtime < r.time) →
      calc_model_chisq data result model =
        Except.error "No data within model range") := by
  constructor
  · rcases h : retainedRows data model with _ | ⟨a, l⟩ <;>
      simp [calc_model_chisq, h]
  · intro hall
    have h0 : retainedRows data model = [] := by
      refine List.filter_eq_nil_iff.mpr ?_
      intro r hr
      simp only [inModelRange, Bool.and_eq_true, decide_eq_true_eq, ge_iff_le,
        not_and]
      rintro ⟨⟨h1, h2⟩, -⟩ -
      rcases hall r hr with h | h <;> linarith
    simp [calc_model_chisq, h0]

/-- Sample bandpass used by the concrete witnesses. -/
def bandA : Bandpass :=
  { minwave := 4000, maxwave := 5000 }

/-- Sample model: times in [0, 50], wavelength support [3000, 6000],
constant predicted flux 1. -/
def modelA : Model :=
  { mintime := 0, maxtime := 50, minwave := 3000, maxwave := 6000,
    bandflux := fun _ => 1 }

/-- Sample fit result with three varied parameters. -/
def resultA : FitResult :=
  { vparam_names := ["z", "t0", "x0"] }

/-- Sample row inside the bounds of the sample model. -/
def rowIn : ObsRow :=
  { time := 10, band := bandA, flux := 2, fluxerr := 1 }

/-- Sample row whose time lies outside the sample model's time bounds. -/
def rowLate : ObsRow :=
  { time := 100, band := bandA, flux := 3, fluxerr := 1 }

/-- Witness for C2: a one-row table entirely outside the model's time
bounds produces the error. -/
theorem calc_model_chisq_error_iff_witness :
    calc_model_chisq [rowLate] resultA modelA =
      Except.error "No data within model range" :=
  (calc_model_chisq_error_iff [rowLate] resultA modelA).2 (by decide)

/-- Perfect fit: `chisq` with the observed values as the model is 0. -/
lemma chisq_self (data error : List ℚ) : chisq data error data = 0 := by
  induction data generalizing error with
  | nil => rfl
  | cons d ds ih =>
    cases error with
    | nil => rfl
    | cons e es =>
      simpa [chisq, sub_self] using ih es

/-- C4: `chisq(data, error, model)` on equal-length inputs is the sum over
row indices of the squared normalized residual, and for data = model it
returns 0 (for any error vector, in particular any nonzero one). -/
theorem chisq_sum_spec (n : ℕ) (data error model : List ℚ)
    (hd : data.length = n) (he : error.length = n) (hm : model.length = n) :
    chisq data error model =
      ∑ i ∈ Finset.range n,
        ((data.getD i 0 - model.getD i 0) / error.getD i 0) ^ 2 ∧
    chisq data error data = 0 := by
  refine ⟨?_, chisq_self data error⟩
  induction n generalizing data error model with
  | zero =>
    rw [List.length_eq_zero] at hd he hm
    subst hd
    subst he
    subst hm
    rfl
  | succ k ih =>
    cases data with
    | nil => simp at hd
    | cons d ds =>
      cases error with
      | nil => simp at he
      | cons e es =>
        cases model with
        | nil => simp at hm
        | cons m ms =>
          have hd' : ds.length = k := by simpa using hd
          have he' : es.length = k := by simpa using he
          have hm' : ms.length = k := by simpa using hm
          rw [Finset.sum_range_succ']
          simp only [List.getD_cons_succ, List.getD_cons_zero]
          rw [← ih ds es ms hd' he' hm']
          simp only [chisq, List.zip_cons_cons, List.map_cons, List.sum_cons]
          ring

/-- Witness for C4 at the concrete inputs [1, 2], [4, 5], [3, 6]. -/
theorem chisq_sum_spec_witness :
    chisq [1, 2] [4, 5] [3, 6] =
      ∑ i ∈ Finset.range 2,
        ((([1, 2] : List ℚ).getD i 0 - ([3, 6] : List ℚ).getD i 0) /
          ([4, 5] : List ℚ).getD i 0) ^ 2 ∧
    chisq [1, 2] [4, 5] [1, 2] = 0 :=
  chisq_sum_spec 2 [1, 2] [4, 5] [3, 6] rfl rfl rfl

/-- C5: whenever some rows survive the filter, `calc_model_chisq` returns
normally (no error, whatever the sign of the difference) and its second
component is the retained row count minus the number of varied
parameters. -/
theorem calc_model_chisq_dof (data : List ObsRow) (result : FitResult)
    (model : Model) (h : retainedRows data model ≠ []) :
    ∃ c : ℚ, calc_model_chisq data result model =
      Except.ok (c, ((retainedRows data model).length : ℤ) -
        result.vparam_names.length) := by
  refine ⟨sncosmo_chisq (retainedRows data model) model, ?_⟩
  have h0 : ¬((retainedRows data model).length = 0) := by
    simpa [List.length_eq_zero] using h
  simp [calc_model_chisq, h0]

/-- Witness for C5: one retained row and three varied parameters give
degrees of freedom 1 - 3 = -2, returned normally. -/
theorem calc_model_chisq_dof_witness :
    retainedRows [rowIn] modelA ≠ [] ∧
    ∃ c : ℚ, calc_model_chisq [rowIn] resultA modelA =
      Except.ok (c, ((retainedRows [rowIn] modelA).length : ℤ) -
        resultA.vparam_names.length) :=
  ⟨by decide, calc_model_chisq_dof [rowIn] resultA modelA (by decide)⟩

/-- The external sncosmo chi-squared over table rows coincides with the
standalone `chisq` primitive applied to the flux, error and predicted-flux
columns of those rows. -/
lemma sncosmo_chisq_eq_chisq (rows : List ObsRow) (model : Model) :
    sncosmo_chisq rows model =
      chisq (rows.map ObsRow.flux) (rows.map ObsRow.fluxerr)
        (rows.map model.bandflux) := by
  induction rows with
  | nil => rfl
  | cons r rs ih =>
    simp only [sncosmo_chisq, chisq, List.map_cons, List.zip_cons_cons,
      List.sum_cons] at ih ⊢
    rw [ih]

/-- C7: the first component returned by `calc_model_chisq` is the
standalone `chisq` primitive evaluated on the retained rows' observed
fluxes, errors and model-predicted fluxes. -/
theorem calc_model_chisq_fst_eq_chisq (data : List ObsRow)
    (result : FitResult) (model : Model) (h : retainedRows data model ≠ []) :
    ∃ dof : ℤ, calc_model_chisq data result model =
      Except.ok (chisq ((retainedRows data model).map ObsRow.flux)
        ((retainedRows data model).map ObsRow.fluxerr)
        ((retainedRows data model).map model.bandflux), dof) := by
  refine ⟨((retainedRows data model).length : ℤ) -
    result.vparam_names.length, ?_⟩
  have h0 : ¬((retainedRows data model).length = 0) := by
    simpa [List.length_eq_zero] using h
  simp [calc_model_chisq, h0, sncosmo_chisq_eq_chisq]

/-- Witness for C7 on a one-row table inside the sample model's bounds. -/
theorem calc_model_chisq_fst_eq_chisq_witness :
    retainedRows [rowIn] modelA ≠ [] ∧
    ∃ dof : ℤ, calc_model_chisq [rowIn] resultA modelA =
      Except.ok (chisq ((retainedRows [rowIn] modelA).map ObsRow.flux)
        ((retainedRows [rowIn] modelA).map ObsRow.fluxerr)
        ((retainedRows [rowIn] modelA).map modelA.bandflux), dof) :=
  ⟨by decide, calc_model_chisq_fst_eq_chisq [rowIn] resultA modelA (by decide)⟩

/-- C8: the state-passing embedding leaves the caller's table exactly as it
was on entry, in the success case and the error case alike, and its value
agrees with the pure embedding; the only effect is producing the filtered
copy inside the result. -/
theorem calc_model_chisq_st_preserves_table (s : List ObsRow)
    (result : FitResult) (model : Model) :
    (calc_model_chisq_st result model).run s =
      (calc_model_chisq s result model, s) := by
  by_cases h0 : ((deepcopy s).filter (inModelRange model)).length = 0 <;>
    simp [calc_model_chisq_st, calc_model_chisq, retainedRows, h0,
      StateT.run, get, getThe, MonadStateOf.get, StateT.get, bind,
      StateT.bind, pure, StateT.pure]

/-- Rows failing the filter contribute nothing to the retained list. -/
lemma retainedRows_append_outside (data extra : List ObsRow) (model : Model)
    (hout : ∀ r ∈ extra, inModelRange model r = false) :
    retainedRows (data ++ extra) model = retainedRows data model := by
  have hext : extra.filter (inModelRange model) = [] :=
    List.filter_eq_nil_iff.mpr fun r hr => by simp [hout r hr]
  simp [retainedRows, deepcopy, List.filter_append, hext]

/-- C9: appending rows that lie outside the model's valid domain to a table
on which `calc_model_chisq` succeeds changes neither the chi-squared nor
the degrees of freedom it returns. -/
theorem calc_model_chisq_append_outside (data extra : List ObsRow)
    (result : FitResult) (model : Model)
    (hok : retainedRows data model ≠ [])
    (hout : ∀ r ∈ extra, inModelRange model r = false) :
    calc_model_chisq (data ++ extra) result model =
      calc_model_chisq data result model := by
  have hre := retainedRows_append_outside data extra model hout
  have h0 : ¬((retainedRows data model).length = 0) := by
    simpa [List.length_eq_zero] using hok
  simp [calc_model_chisq, hre]

/-- Witness for C9: appending an out-of-range row to a succeeding one-row
table leaves the output unchanged. -/
theorem calc_model_chisq_append_outside_witness :
    retainedRows [rowIn] modelA ≠ [] ∧
    (∀ r ∈ [rowLate], inModelRange modelA r = false) ∧
    calc_model_chisq ([rowIn] ++ [rowLate]) resultA modelA =
      calc_model_chisq [rowIn] resultA modelA :=
  ⟨by decide, by decide, calc_model_chisq_append_outside [rowIn] [rowLate]
    resultA modelA (by decide) (by decide)⟩

end LCRegression
